import Mathlib

/-!
Shallow embedding of the core of the midterm-calculator repository
(src/app/operations.py, calculation.py, history.py, calculator_memento.py,
calculator.py, input_validators.py) and proofs about its specification.

Modelling conventions:
  - Python floats are modelled as exact rationals.  A rational value stands for
    the IEEE double bit-for-bit at every concrete input used in a theorem below;
    arithmetic rounding of doubles is abstracted away, which is immaterial to the
    properties proved here (stack/bookkeeping behaviour, error classification,
    serialization round trips of already-stored values).
  - CPython semantics of the builtin power operator on floats is modelled
    explicitly by `pyPow` below: `0.0` to a negative power raises
    ZeroDivisionError, a negative base to a non-integral exponent returns a
    complex number (no exception), otherwise a float is returned.  Float
    overflow (OverflowError) cannot be represented in the exact-rational model
    and is abstracted away; no theorem below depends on the overflow branch.
  - A float whose exact value the rational model does not track (an irrational
    power, or NaN read back from an empty CSV cell) is the `PyNumber.realUnknown`
    constructor.
  - Exceptions are modelled with `Except`; the Python exception classes of
    src/app/exceptions.py together with the builtin exceptions that escape the
    except clauses of the source are the `PyError` type.
  - The CSV file written by pandas is modelled as the list of its data rows,
    each row already split into the five typed fields produced by
    `Calculation.to_dict`; the file system is an association list from paths to
    row lists.  Row-level numeric corruption of a hand-edited file is folded
    into the unrecognized-operation-name case, which is the only row-level
    failure the properties below exercise.
-/

/-- Decidable equality of Except outcomes, to evaluate concrete runs. -/
instance instDecEqExcept {ε α : Type} [DecidableEq ε] [DecidableEq α] :
    DecidableEq (Except ε α) := fun a b =>
  match a, b with
  | .ok x, .ok y =>
    if h : x = y then .isTrue (by rw [h]) else .isFalse (fun hc => h (Except.ok.inj hc))
  | .error x, .error y =>
    if h : x = y then .isTrue (by rw [h]) else .isFalse (fun hc => h (Except.error.inj hc))
  | .ok _, .error _ => .isFalse (fun hc => Except.noConfusion hc)
  | .error _, .ok _ => .isFalse (fun hc => Except.noConfusion hc)

/-- The ten concrete Operation subclasses of src/app/operations.py. -/
inductive Op where
  | add | subtract | multiply | divide | power | root
  | modulus | int_divide | percent | abs_diff
  deriving DecidableEq, Repr

/-- Python exceptions relevant to the embedded code: the CalculatorError
subclasses of src/app/exceptions.py, plus the builtin ZeroDivisionError and
TypeError which escape the except clauses of the source. -/
inductive PyError where
  | operationError (msg : String)
  | validationError (msg : String)
  | historyError (msg : String)
  | zeroDivisionError
  | typeError
  deriving DecidableEq, Repr

/-- A Python numeric value as the model tracks it: a float with an exactly
known rational value, a float whose exact value the model does not track, or a
complex number (produced by the builtin power operator on a negative base with
a non-integral exponent). -/
inductive PyNumber where
  | real (q : ℚ)
  | realUnknown
  | complexVal
  deriving DecidableEq, Repr

/-- Whether a float is integral, exactly as CPython tests it in float_pow:
`iw == floor(iw)`. -/
def ratIsInt (q : ℚ) : Bool := decide ((⌊q⌋ : ℚ) = q)

/-- Outcome classification of CPython float ** float (floatobject.c
float_pow), for finite operands: `0.0 ** negative` raises ZeroDivisionError;
a negative base with a non-integral exponent returns a complex number;
otherwise a float is returned, whose value is exact in the model when the
exponent is integral. -/
def pyPow (a b : ℚ) : Except PyError PyNumber :=
  if a = 0 ∧ b < 0 then .error .zeroDivisionError
  else if a < 0 ∧ ¬ ratIsInt b then .ok .complexVal
  else if ratIsInt b then .ok (.real (a ^ ⌊b⌋))
  else .ok .realUnknown

/-- Python float modulo: `x % y = x - y * floor(x / y)` (sign follows the
divisor), used by RootOperation for its `b % 2 == 0` evenness test. -/
def pyFloatMod (x y : ℚ) : ℚ := x - y * ⌊x / y⌋

/-- AddOperation.execute from src/app/operations.py. -/
def AddOperation.execute (a b : ℚ) : Except PyError PyNumber :=
  .ok (.real (a + b))

/-- SubtractOperation.execute from src/app/operations.py. -/
def SubtractOperation.execute (a b : ℚ) : Except PyError PyNumber :=
  .ok (.real (a - b))

/-- MultiplyOperation.execute from src/app/operations.py. -/
def MultiplyOperation.execute (a b : ℚ) : Except PyError PyNumber :=
  .ok (.real (a * b))

/-- DivideOperation.execute from src/app/operations.py. -/
def DivideOperation.execute (a b : ℚ) : Except PyError PyNumber :=
  if b = 0 then .error (.operationError "Cannot divide by zero")
  else .ok (.real (a / b))

/-- PowerOperation.execute from src/app/operations.py.  The try/except of the
source catches only OverflowError and ValueError; in this model the builtin
power operator raises neither (its domain-error outcome on floats is a complex
return value and its zero-to-negative-power outcome is ZeroDivisionError), so
the except branch converting to OperationError is unreachable here. -/
def PowerOperation.execute (a b : ℚ) : Except PyError PyNumber :=
  pyPow a b

/-- RootOperation.execute from src/app/operations.py. -/
def RootOperation.execute (a b : ℚ) : Except PyError PyNumber :=
  if b = 0 then .error (.operationError "Cannot calculate 0th root")
  else if a < 0 ∧ pyFloatMod b 2 = 0 then
    .error (.operationError "Cannot calculate even root of negative number")
  else pyPow a (1 / b)

/-- ModulusOperation.execute from src/app/operations.py. -/
def ModulusOperation.execute (a b : ℚ) : Except PyError PyNumber :=
  if b = 0 then .error (.operationError "Cannot perform modulus with zero divisor")
  else .ok (.real (pyFloatMod a b))

/-- IntDivideOperation.execute from src/app/operations.py; Python float
floor division `a // b` is `floor(a / b)` as a float. -/
def IntDivideOperation.execute (a b : ℚ) : Except PyError PyNumber :=
  if b = 0 then .error (.operationError "Cannot divide by zero")
  else .ok (.real (⌊a / b⌋ : ℚ))

/-- PercentOperation.execute from src/app/operations.py. -/
def PercentOperation.execute (a b : ℚ) : Except PyError PyNumber :=
  if b = 0 then .error (.operationError "Cannot calculate percentage with zero denominator")
  else .ok (.real (a / b * 100))

/-- AbsDiffOperation.execute from src/app/operations.py. -/
def AbsDiffOperation.execute (a b : ℚ) : Except PyError PyNumber :=
  .ok (.real |a - b|)

/-- Dispatch of `operation.execute(a, b)` over the ten concrete classes. -/
def opExecute (op : Op) (a b : ℚ) : Except PyError PyNumber :=
  match op with
  | .add => AddOperation.execute a b
  | .subtract => SubtractOperation.execute a b
  | .multiply => MultiplyOperation.execute a b
  | .divide => DivideOperation.execute a b
  | .power => PowerOperation.execute a b
  | .root => RootOperation.execute a b
  | .modulus => ModulusOperation.execute a b
  | .int_divide => IntDivideOperation.execute a b
  | .percent => PercentOperation.execute a b
  | .abs_diff => AbsDiffOperation.execute a b

/-- ASCII lowercasing of one character, as str.lower applies it to the
characters of the operation names involved here. -/
def pyCharLower (ch : Char) : Char :=
  if 65 ≤ ch.toNat ∧ ch.toNat ≤ 90 then Char.ofNat (ch.toNat + 32) else ch

/-- `operation_name.lower()` of the source: lowercase every character. -/
def pyLower (s : String) : String := ⟨s.data.map pyCharLower⟩

/-- OperationFactory.create_operation from src/app/operations.py: lowercases
the name and looks it up in the registry of ten names. -/
def OperationFactory.create_operation (operation_name : String) : Except PyError Op :=
  match pyLower operation_name with
  | "add" => .ok .add
  | "subtract" => .ok .subtract
  | "multiply" => .ok .multiply
  | "divide" => .ok .divide
  | "power" => .ok .power
  | "root" => .ok .root
  | "modulus" => .ok .modulus
  | "int_divide" => .ok .int_divide
  | "percent" => .ok .percent
  | "abs_diff" => .ok .abs_diff
  | _ => .error (.operationError ("Unknown operation: " ++ operation_name))

/-- The serialized operation name produced by
`operation.__class__.__name__.replace(\x22Operation\x22, \x22\x22).lower()` in
Calculation.to_dict (src/app/calculation.py).  Note that for IntDivideOperation
and AbsDiffOperation this drops the underscore of the registry key. -/
def opClassNameLower (op : Op) : String :=
  match op with
  | .add => "add"
  | .subtract => "subtract"
  | .multiply => "multiply"
  | .divide => "divide"
  | .power => "power"
  | .root => "root"
  | .modulus => "modulus"
  | .int_divide => "intdivide"
  | .percent => "percent"
  | .abs_diff => "absdiff"

/-- The Calculation class of src/app/calculation.py: an operation (modelled as
its tag, the instances being stateless), two operands, an optional result (None
until executed), and a creation timestamp (modelled as its isoformat string). -/
structure Calculation where
  operation : Op
  operand_a : ℚ
  operand_b : ℚ
  result : Option PyNumber
  timestamp : String
  deriving DecidableEq, Repr

/-- One data row of the CSV file, as produced by Calculation.to_dict: the
five typed fields pandas writes and reads back. -/
structure Row where
  operation : String
  operand_a : ℚ
  operand_b : ℚ
  result : Option PyNumber
  timestamp : String
  deriving DecidableEq, Repr

/-- Calculation.to_dict from src/app/calculation.py. -/
def Calculation.to_dict (c : Calculation) : Row :=
  { operation := opClassNameLower c.operation
    operand_a := c.operand_a
    operand_b := c.operand_b
    result := c.result
    timestamp := c.timestamp }

/-- The file system seen by save_to_csv and load_from_csv: an association list
from paths to the data rows of the file stored there (most recent write
first). -/
def FileSystem := List (String × List Row)

/-- Read the rows of the file at `path`, if it exists. -/
def FileSystem.read (fs : FileSystem) (path : String) : Option (List Row) :=
  (List.find? (fun e => e.1 == path) fs).map (fun e => e.2)

/-- Overwrite the file at `path` with the given rows. -/
def FileSystem.write (fs : FileSystem) (path : String) (rows : List Row) : FileSystem :=
  (path, rows) :: fs

/-- The CalculationHistory class of src/app/history.py: the backing list of
calculations and the maximum size bound. -/
structure CalculationHistory where
  hist : List Calculation
  max_size : ℕ
  deriving DecidableEq, Repr

/-- CalculationHistory.add_calculation: append, then pop index 0 if the length
now exceeds max_size. -/
def CalculationHistory.add_calculation (h : CalculationHistory) (c : Calculation) :
    CalculationHistory :=
  let appended := h.hist ++ [c]
  if appended.length > h.max_size then { h with hist := appended.tail }
  else { h with hist := appended }

/-- CalculationHistory.get_history: a copy of the backing list (value
semantics make the copy the list itself). -/
def CalculationHistory.get_history (h : CalculationHistory) : List Calculation := h.hist

/-- CalculationHistory.get_count. -/
def CalculationHistory.get_count (h : CalculationHistory) : ℕ := h.hist.length

/-- CalculationHistory.clear_history. -/
def CalculationHistory.clear_history (h : CalculationHistory) : CalculationHistory :=
  { h with hist := [] }

/-- CalculationHistory.save_to_csv: raises HistoryError when the history is
empty, before any file access; otherwise writes the to_dict rows of every
record to the file.  Returns the outcome together with the resulting file
system.  The PersistError branch of the source (I/O failure inside pandas
to_csv) has no counterpart in the model, whose writes always succeed. -/
def CalculationHistory.save_to_csv (h : CalculationHistory) (fs : FileSystem)
    (filepath : String) : Except PyError Unit × FileSystem :=
  if h.hist.isEmpty then (.error (.historyError "No history to save"), fs)
  else (.ok (), fs.write filepath (h.hist.map Calculation.to_dict))

/-- Parsing of one CSV row inside the per-row try of load_from_csv: the row is
kept when the factory recognizes the operation name and `float(row[result])`
succeeds (it fails on the textual repr of a complex result; an empty cell read
back as NaN is accepted and is a float the model does not track, left as the
stored optional value). -/
def parseRow (row : Row) : Option Calculation :=
  match OperationFactory.create_operation row.operation with
  | .error _ => none
  | .ok op =>
    match row.result with
    | some PyNumber.complexVal => none
    | r =>
      some { operation := op
             operand_a := row.operand_a
             operand_b := row.operand_b
             result := r
             timestamp := row.timestamp }

/-- CalculationHistory.load_from_csv: if the file does not exist, raises
HistoryError (from FileNotFoundError) and leaves the store untouched; once the
file is read, the store is cleared, each row is parsed with per-row failures
skipped, and finally only the most recent max_size records are retained. -/
def CalculationHistory.load_from_csv (h : CalculationHistory) (fs : FileSystem)
    (filepath : String) : Except PyError Unit × CalculationHistory :=
  match fs.read filepath with
  | none => (.error (.historyError ("History file not found: " ++ filepath)), h)
  | some rows =>
    let parsed := rows.filterMap parseRow
    let final := if parsed.length > h.max_size then parsed.drop (parsed.length - h.max_size)
                 else parsed
    (.ok (), { h with hist := final })

/-- The CalculatorCaretaker class of src/app/calculator_memento.py.  A memento
is a deep copy of a history list; with value semantics it is the list itself.
Stacks grow at the end of the list, matching Python append/pop. -/
structure CalculatorCaretaker where
  undo_stack : List (List Calculation)
  redo_stack : List (List Calculation)
  deriving DecidableEq, Repr

/-- CalculatorCaretaker.save_state: push a copy of the history onto the undo
stack and clear the redo stack. -/
def CalculatorCaretaker.save_state (ct : CalculatorCaretaker)
    (history : List Calculation) : CalculatorCaretaker :=
  { undo_stack := ct.undo_stack ++ [history], redo_stack := [] }

/-- CalculatorCaretaker.undo: raise HistoryError when the undo stack is empty;
otherwise push the current history onto the redo stack, pop the top of the
undo stack and return its contents together with the new caretaker state. -/
def CalculatorCaretaker.undo (ct : CalculatorCaretaker)
    (current_history : List Calculation) :
    Except PyError (List Calculation × CalculatorCaretaker) :=
  match ct.undo_stack.getLast? with
  | none => .error (.historyError "Nothing to undo")
  | some previous =>
    .ok (previous,
         { undo_stack := ct.undo_stack.dropLast
           redo_stack := ct.redo_stack ++ [current_history] })

/-- CalculatorCaretaker.redo: raise HistoryError when the redo stack is empty;
otherwise pop the top of the redo stack, push that same memento back onto the
undo stack, and return its contents together with the new caretaker state. -/
def CalculatorCaretaker.redo (ct : CalculatorCaretaker) :
    Except PyError (List Calculation × CalculatorCaretaker) :=
  match ct.redo_stack.getLast? with
  | none => .error (.historyError "Nothing to redo")
  | some next =>
    .ok (next,
         { undo_stack := ct.undo_stack ++ [next]
           redo_stack := ct.redo_stack.dropLast })

/-- CalculatorCaretaker.can_undo. -/
def CalculatorCaretaker.can_undo (ct : CalculatorCaretaker) : Bool :=
  ct.undo_stack.length > 0

/-- CalculatorCaretaker.can_redo. -/
def CalculatorCaretaker.can_redo (ct : CalculatorCaretaker) : Bool :=
  ct.redo_stack.length > 0

/-- CalculatorCaretaker.clear. -/
def CalculatorCaretaker.clear (_ct : CalculatorCaretaker) : CalculatorCaretaker :=
  { undo_stack := [], redo_stack := [] }

/-- An input as perform_calculation receives it from the REPL or a caller:
either a value `float()` converts (modelled by its numeric value) or one it
rejects with ValueError/TypeError (modelled by its text). -/
inductive PyOperand where
  | num (q : ℚ)
  | nonNumeric (s : String)
  deriving DecidableEq, Repr

/-- validate_number from src/app/input_validators.py. -/
def validate_number (value : PyOperand) (param_name : String) : Except PyError ℚ :=
  match value with
  | .num q => .ok q
  | .nonNumeric _ => .error (.validationError (param_name ++ " must be a number"))

/-- validate_in_range from src/app/input_validators.py. -/
def validate_in_range (value : ℚ) (max_value : ℚ) (param_name : String) :
    Except PyError Unit :=
  if |value| > max_value then
    .error (.validationError (param_name ++ " exceeds maximum allowed value"))
  else .ok ()

/-- Round half to even on rationals, the tie-breaking rule of the Python
builtin round. -/
def roundHalfEven (q : ℚ) : ℤ :=
  if q - ⌊q⌋ < 1 / 2 then ⌊q⌋
  else if q - ⌊q⌋ > 1 / 2 then ⌊q⌋ + 1
  else if ⌊q⌋ % 2 == 0 then ⌊q⌋ else ⌊q⌋ + 1

/-- `round(value, precision)` of the source (src/app/calculator.py line 113) on
the model values: exact decimal rounding on a tracked float, identity on an
untracked float, and TypeError on a complex number (complex defines no
rounding, so the result of a negative base to a fractional power crashes the
calculation path with an exception outside the CalculatorError hierarchy). -/
def pyRound (v : PyNumber) (precision : ℤ) : Except PyError PyNumber :=
  match v with
  | .real q => .ok (.real ((roundHalfEven (q * 10 ^ precision) : ℚ) / 10 ^ precision))
  | .realUnknown => .ok .realUnknown
  | .complexVal => .error .typeError

/-- The configuration fields of CalculatorConfig (src/app/calculator_config.py)
that perform_calculation and the observers consume. -/
structure CalculatorConfig where
  max_history_size : ℕ
  auto_save : Bool
  precision : ℤ
  max_input_value : ℚ
  history_file : String
  deriving DecidableEq, Repr

/-- The state of a Calculator session (src/app/calculator.py): its
configuration, history store, caretaker, the file system the auto-save
observer writes to, and the trace of observer notifications issued (one entry
per notify_observers call, recording the calculation every registered observer
receives). -/
structure Calculator where
  config : CalculatorConfig
  history : CalculationHistory
  caretaker : CalculatorCaretaker
  fs : FileSystem
  notified : List Calculation

/-- Calculator.notify_observers: every registered observer receives the
calculation, in registration order.  The LoggingObserver only talks to the
external logger; the AutoSaveObserver (registered when auto_save is set) saves
the history to the configured file when it is non-empty, swallowing any
HistoryError. -/
def Calculator.notify_observers (c : Calculator) (calculation : Calculation) : Calculator :=
  let c1 := { c with notified := c.notified ++ [calculation] }
  if c.config.auto_save then
    if c1.history.get_count > 0 then
      { c1 with fs := (c1.history.save_to_csv c1.fs c.config.history_file).2 }
    else c1
  else c1

/-- Calculator.perform_calculation from src/app/calculator.py: validate both
operands (number, then range), save the pre-call history to the caretaker,
create the operation, execute it, round the result, append the record to
history and notify the observers.  Every raised exception propagates with the
state reached at that point. -/
def Calculator.perform_calculation (c : Calculator) (operation_name : String)
    (operand_a operand_b : PyOperand) (now : String) :
    Except PyError PyNumber × Calculator :=
  match validate_number operand_a "operand_a" with
  | .error e => (.error e, c)
  | .ok a =>
  match validate_number operand_b "operand_b" with
  | .error e => (.error e, c)
  | .ok b =>
  match validate_in_range a c.config.max_input_value "operand_a" with
  | .error e => (.error e, c)
  | .ok _ =>
  match validate_in_range b c.config.max_input_value "operand_b" with
  | .error e => (.error e, c)
  | .ok _ =>
  let c1 := { c with caretaker := c.caretaker.save_state c.history.get_history }
  match OperationFactory.create_operation operation_name with
  | .error e => (.error e, c1)
  | .ok op =>
  match opExecute op a b with
  | .error e => (.error e, c1)
  | .ok value =>
  match pyRound value c.config.precision with
  | .error e => (.error e, c1)
  | .ok rounded =>
  let calculation : Calculation :=
    { operation := op, operand_a := a, operand_b := b
      result := some rounded, timestamp := now }
  let c2 := { c1 with history := c1.history.add_calculation calculation }
  (.ok rounded, c2.notify_observers calculation)

/-- A concrete executed calculation used in concrete instances below. -/
def calcA : Calculation := ⟨.add, 1, 1, some (.real 2), "t1"⟩

/-- A second concrete executed calculation. -/
def calcB : Calculation := ⟨.add, 2, 2, some (.real 4), "t2"⟩

/-- A third concrete executed calculation. -/
def calcC : Calculation := ⟨.add, 3, 3, some (.real 6), "t3"⟩

/-- A concrete executed int_divide calculation (10 // 3 = 3). -/
def calcIntDiv : Calculation := ⟨.int_divide, 10, 3, some (.real 3), "t4"⟩

/-- C1: counterexample.  With H0 = [], H1 = [calcA], H2 = [calcA, calcB]:
after save_state(H0); save_state(H1), undo(H2) returns H1 and redo() returns
H2 as the claim describes, but the SUBSEQUENT undo with current history H2
returns H2 — not H1 — because redo pushed the popped memento itself back onto
the undo stack.  The toggle the claim asserts fails at this input. -/
theorem C1_counterexample :
    ((((CalculatorCaretaker.mk [] []).save_state []).save_state [calcA]) =
      CalculatorCaretaker.mk [[], [calcA]] []) ∧
    ((CalculatorCaretaker.mk [[], [calcA]] []).undo [calcA, calcB] =
      Except.ok ([calcA], CalculatorCaretaker.mk [[]] [[calcA, calcB]])) ∧
    ((CalculatorCaretaker.mk [[]] [[calcA, calcB]]).redo =
      Except.ok ([calcA, calcB], CalculatorCaretaker.mk [[], [calcA, calcB]] [])) ∧
    ((CalculatorCaretaker.mk [[], [calcA, calcB]] []).undo [calcA, calcB] =
      Except.ok ([calcA, calcB], CalculatorCaretaker.mk [[]] [[calcA, calcB]])) ∧
    [calcA, calcB] ≠ ([calcA] : List Calculation) := by
  refine ⟨rfl, rfl, rfl, rfl, ?_⟩
  decide

/-- C1 (amended): after save_state(H0); save_state(H1); undo(H2) → H1;
redo() → H2, repeated undo/redo is stable with no data loss (the caretaker
cycles between the states (undo=[H0,H2], redo=[]) and (undo=[H0], redo=[H2]),
H0 staying at the bottom of the undo stack), but it does not toggle between
H1 and H2: every subsequent undo with current history H2 returns H2, and
every subsequent redo returns H2. -/
theorem C1_theorem (H0 H1 H2 : List Calculation) :
    ((((CalculatorCaretaker.mk [] []).save_state H0).save_state H1) =
      CalculatorCaretaker.mk [H0, H1] []) ∧
    ((CalculatorCaretaker.mk [H0, H1] []).undo H2 =
      Except.ok (H1, CalculatorCaretaker.mk [H0] [H2])) ∧
    ((CalculatorCaretaker.mk [H0] [H2]).redo =
      Except.ok (H2, CalculatorCaretaker.mk [H0, H2] [])) ∧
    ((CalculatorCaretaker.mk [H0, H2] []).undo H2 =
      Except.ok (H2, CalculatorCaretaker.mk [H0] [H2])) ∧
    ((CalculatorCaretaker.mk [H0] [H2]).redo =
      Except.ok (H2, CalculatorCaretaker.mk [H0, H2] [])) :=
  ⟨rfl, rfl, rfl, rfl, rfl⟩

/-- C6: save_state empties the redo stack unconditionally: after any
successful undo followed by save_state(hx), can_redo() is false. -/
theorem C6_theorem (ct : CalculatorCaretaker) (cur hx rest : List Calculation)
    (ct2 : CalculatorCaretaker) (_h : ct.undo cur = Except.ok (rest, ct2)) :
    (ct2.save_state hx).can_redo = false := by
  simp [CalculatorCaretaker.save_state, CalculatorCaretaker.can_redo]

/-- C6 witness: a concrete undo followed by save_state leaves can_redo false. -/
theorem C6_witness :
    ((CalculatorCaretaker.mk [[]] []).undo [calcA] =
      Except.ok ([], CalculatorCaretaker.mk [] [[calcA]])) ∧
    ((CalculatorCaretaker.mk [] [[calcA]]).save_state [calcB]).can_redo = false :=
  ⟨rfl, C6_theorem (CalculatorCaretaker.mk [[]] []) [calcA] [calcB] []
    (CalculatorCaretaker.mk [] [[calcA]]) rfl⟩

/-- C3: if the stored length is at most max_size, it still is after
add_calculation; when the store is exactly at capacity the new list is the
appended list with index 0 evicted; and concretely, with max_size 2 appending
three records to the empty store yields the last two in order. -/
theorem C3_theorem (h : CalculationHistory) (c : Calculation)
    (hle : h.hist.length ≤ h.max_size) :
    ((h.add_calculation c).hist.length ≤ h.max_size ∧
     (h.hist.length = h.max_size → (h.add_calculation c).hist = (h.hist ++ [c]).tail)) ∧
    ((((CalculationHistory.mk [] 2).add_calculation calcA).add_calculation calcB).add_calculation
        calcC).hist = [calcB, calcC] := by
  refine ⟨⟨?_, ?_⟩, rfl⟩
  · by_cases hgt : h.hist.length + 1 > h.max_size
    · simp [CalculationHistory.add_calculation, List.length_append, hgt,
        List.length_tail]
      omega
    · simp [CalculationHistory.add_calculation, List.length_append, hgt]
      omega
  · intro hcap
    have hgt : h.hist.length + 1 > h.max_size := by omega
    simp [CalculationHistory.add_calculation, List.length_append, hgt]

/-- C3 witness: at a concrete store of length 1 with max_size 1, the bound is
kept and the eviction equation holds. -/
theorem C3_witness :
    ((CalculationHistory.mk [calcA] 1).hist.length ≤ 1 ∧
     ((CalculationHistory.mk [calcA] 1).hist.length = 1 →
       ((CalculationHistory.mk [calcA] 1).add_calculation calcB).hist =
         (((CalculationHistory.mk [calcA] 1).hist ++ [calcB]).tail))) ∧
    ((((CalculationHistory.mk [] 2).add_calculation calcA).add_calculation calcB).add_calculation
        calcC).hist = [calcB, calcC] :=
  ⟨⟨((C3_theorem (CalculationHistory.mk [calcA] 1) calcB (by decide)).1).1,
    ((C3_theorem (CalculationHistory.mk [calcA] 1) calcB (by decide)).1).2⟩,
   (C3_theorem (CalculationHistory.mk [calcA] 1) calcB (by decide)).2⟩

/-- C7: save_to_csv on an empty store fails with the EmptyHistory error
(HistoryError, raised before any file access), the file system is unchanged,
and a subsequent load from the target path behaves exactly as it would have
before the failed save. -/
theorem C7_theorem (h h2 : CalculationHistory) (fs : FileSystem) (filepath : String)
    (hempty : h.hist = []) :
    (h.save_to_csv fs filepath =
      (Except.error (PyError.historyError "No history to save"), fs)) ∧
    (h2.load_from_csv (h.save_to_csv fs filepath).2 filepath =
      h2.load_from_csv fs filepath) := by
  have hmain : h.save_to_csv fs filepath =
      (Except.error (PyError.historyError "No history to save"), fs) := by
    simp [CalculationHistory.save_to_csv, hempty]
  exact ⟨hmain, by rw [hmain]⟩

/-- C7 witness: concretely, saving an empty store over a file system that
already holds a row for the target path fails and leaves the file readable
with its prior contents. -/
theorem C7_witness :
    ((CalculationHistory.mk [] 5).save_to_csv
        [("h.csv", [Calculation.to_dict calcA])] "h.csv" =
      (Except.error (PyError.historyError "No history to save"),
       [("h.csv", [Calculation.to_dict calcA])])) ∧
    ((CalculationHistory.mk [] 5).load_from_csv
        ((CalculationHistory.mk [] 5).save_to_csv
          [("h.csv", [Calculation.to_dict calcA])] "h.csv").2 "h.csv" =
      (CalculationHistory.mk [] 5).load_from_csv
        [("h.csv", [Calculation.to_dict calcA])] "h.csv") :=
  C7_theorem (CalculationHistory.mk [] 5) (CalculationHistory.mk [] 5)
    [("h.csv", [Calculation.to_dict calcA])] "h.csv" rfl

/-- C9: load_from_csv is atomic only with respect to file-open failure: when
the path does not exist the error is raised with the store unchanged, but once
the file is read the store is replaced, so a file whose every row fails to
parse loads successfully and leaves the store empty, losing the previous
contents. -/
theorem C9_theorem (h : CalculationHistory) (fs : FileSystem) (filepath : String) :
    (fs.read filepath = none →
      h.load_from_csv fs filepath =
        (Except.error (PyError.historyError ("History file not found: " ++ filepath)), h)) ∧
    (∀ rows, fs.read filepath = some rows → (∀ r ∈ rows, parseRow r = none) →
      (h.load_from_csv fs filepath).1 = Except.ok () ∧
      ((h.load_from_csv fs filepath).2).hist = []) := by
  constructor
  · intro hnone
    simp [CalculationHistory.load_from_csv, hnone]
  · intro rows hsome hbad
    have hparsed : rows.filterMap parseRow = [] := by
      simp [List.filterMap_eq_nil_iff]
      exact hbad
    simp [CalculationHistory.load_from_csv, hsome, hparsed]

/-- C9 witness: loading a missing path leaves a concrete nonempty store
unchanged, and loading a file whose single row has an unknown operation name
succeeds and empties that store. -/
theorem C9_witness :
    ((CalculationHistory.mk [calcA] 10).load_from_csv
        [("h.csv", [Row.mk "bogus" 1 1 none "t"])] "missing.csv" =
      (Except.error (PyError.historyError "History file not found: missing.csv"),
       CalculationHistory.mk [calcA] 10)) ∧
    (((CalculationHistory.mk [calcA] 10).load_from_csv
        [("h.csv", [Row.mk "bogus" 1 1 none "t"])] "h.csv").1 = Except.ok ()) ∧
    ((((CalculationHistory.mk [calcA] 10).load_from_csv
        [("h.csv", [Row.mk "bogus" 1 1 none "t"])] "h.csv").2).hist = []) :=
  ⟨(C9_theorem (CalculationHistory.mk [calcA] 10)
      [("h.csv", [Row.mk "bogus" 1 1 none "t"])] "missing.csv").1 rfl,
   (C9_theorem (CalculationHistory.mk [calcA] 10)
      [("h.csv", [Row.mk "bogus" 1 1 none "t"])] "h.csv").2
      [Row.mk "bogus" 1 1 none "t"] rfl (by decide)⟩

/-- C4: evaluation at the failing input.  A one-record history holding an
executed int_divide calculation serializes its operation name as "intdivide"
(the class-name-derived string), which the factory does not recognize, so the
saved row is skipped on load: save then load reproduces 0 of the 1 records.
The claimed round trip fails for int_divide (and likewise abs_diff) records. -/
theorem C4_theorem :
    ((Calculation.to_dict calcIntDiv).operation = "intdivide") ∧
    (OperationFactory.create_operation "intdivide" =
      Except.error (PyError.operationError "Unknown operation: intdivide")) ∧
    (((CalculationHistory.mk [calcIntDiv] 100).save_to_csv [] "h.csv").1 = Except.ok ()) ∧
    ((((CalculationHistory.mk [] 100).load_from_csv
        ((CalculationHistory.mk [calcIntDiv] 100).save_to_csv [] "h.csv").2 "h.csv").1 =
      Except.ok ())) ∧
    ((((CalculationHistory.mk [] 100).load_from_csv
        ((CalculationHistory.mk [calcIntDiv] 100).save_to_csv [] "h.csv").2 "h.csv").2).hist =
      []) :=
  ⟨rfl, rfl, rfl, rfl, rfl⟩

/-- C5: evaluation at the failing input.  For a = -2 and b = 0.5 (a domain
error per the claim: a non-integer power of a negative base), the builtin
power operator returns a complex number and raises nothing, so the except
clause of PowerOperation (which catches only OverflowError and ValueError)
never fires and no OperationFailed error is produced; downstream,
perform_calculation then crashes in round() with a TypeError.  The claimed
OperationFailed outcome does not happen. -/
theorem C5_theorem :
    (PowerOperation.execute (-2) (1 / 2) = Except.ok PyNumber.complexVal) ∧
    (pyRound PyNumber.complexVal 2 = Except.error PyError.typeError) := by
  constructor
  · have hint : ratIsInt ((1 : ℚ) / 2) = false := by
      unfold ratIsInt
      rw [decide_eq_false_iff_not]
      norm_num
    unfold PowerOperation.execute pyPow
    rw [if_neg (by norm_num), if_pos ⟨by norm_num, by rw [hint]; simp⟩]
  · rfl

/-- C8: the two InvalidRoot branches hold (b = 0, and a < 0 with b an even
integer), but the remaining branch diverges from the claim: for a = -8, b = 3
the computation a ** (1 / b) returns a complex number (not a float, and not an
OperationFailed error), and for a = 0, b = -2 it raises an uncaught
ZeroDivisionError instead of OperationFailed. -/
theorem C8_theorem :
    (RootOperation.execute 10 0 =
      Except.error (PyError.operationError "Cannot calculate 0th root")) ∧
    (RootOperation.execute (-9) 2 =
      Except.error (PyError.operationError "Cannot calculate even root of negative number")) ∧
    (RootOperation.execute (-8) 3 = Except.ok PyNumber.complexVal) ∧
    (RootOperation.execute 0 (-2) = Except.error PyError.zeroDivisionError) := by
  refine ⟨by decide, ?_, ?_, ?_⟩
  · unfold RootOperation.execute
    rw [if_neg (by norm_num : ¬ (2 : ℚ) = 0),
        if_pos ⟨by norm_num, by unfold pyFloatMod; norm_num⟩]
  · have hmod : pyFloatMod 3 2 ≠ 0 := by
      unfold pyFloatMod
      norm_num
    have hint : ratIsInt ((1 : ℚ) / 3) = false := by
      unfold ratIsInt
      rw [decide_eq_false_iff_not]
      norm_num
    unfold RootOperation.execute
    rw [if_neg (by norm_num : ¬ (3 : ℚ) = 0), if_neg (fun hc => hmod hc.2)]
    unfold pyPow
    rw [if_neg (by norm_num), if_pos ⟨by norm_num, by rw [hint]; simp⟩]
  · unfold RootOperation.execute
    rw [if_neg (by norm_num : ¬ (-2 : ℚ) = 0), if_neg (by norm_num)]
    unfold pyPow
    rw [if_pos ⟨rfl, by norm_num⟩]

/-- C2: every error raised inside perform_calculation propagates to the
immediate caller (the Except result), and in that case the history store
record sequence and the observer-notification trace are exactly those of the
pre-call state: history is not mutated and no observer is notified. -/
theorem C2_theorem (c : Calculator) (operation_name : String)
    (operand_a operand_b : PyOperand) (now : String) (e : PyError)
    (herr : (c.perform_calculation operation_name operand_a operand_b now).1 =
      Except.error e) :
    ((c.perform_calculation operation_name operand_a operand_b now).2.history =
      c.history) ∧
    ((c.perform_calculation operation_name operand_a operand_b now).2.notified =
      c.notified) := by
  unfold Calculator.perform_calculation at herr ⊢
  cases h1 : validate_number operand_a "operand_a" with
  | error e1 => simp [h1]
  | ok a =>
  simp only [h1] at herr ⊢
  cases h2 : validate_number operand_b "operand_b" with
  | error e2 => simp [h2]
  | ok b =>
  simp only [h2] at herr ⊢
  cases h3 : validate_in_range a c.config.max_input_value "operand_a" with
  | error e3 => simp [h3]
  | ok u3 =>
  simp only [h3] at herr ⊢
  cases h4 : validate_in_range b c.config.max_input_value "operand_b" with
  | error e4 => simp [h4]
  | ok u4 =>
  simp only [h4] at herr ⊢
  cases h5 : OperationFactory.create_operation operation_name with
  | error e5 => simp [h5]
  | ok op =>
  simp only [h5] at herr ⊢
  cases h6 : opExecute op a b with
  | error e6 => simp [h6]
  | ok value =>
  simp only [h6] at herr ⊢
  cases h7 : pyRound value c.config.precision with
  | error e7 => simp [h7]
  | ok rounded =>
  simp only [h7] at herr
  exact absurd herr (by simp)

/-- A concrete configuration for the concrete Calculator sessions below
(auto-save off, precision 2, max input magnitude 1000000, bound 100). -/
def cfgEx : CalculatorConfig := ⟨100, false, 2, 1000000, "h.csv"⟩

/-- A fresh concrete Calculator session. -/
def calcSessionEx : Calculator := ⟨cfgEx, ⟨[], 100⟩, ⟨[], []⟩, [], []⟩

/-- C2 witness: divide-by-zero propagates OperationError and leaves the
history and the notification trace of a concrete fresh session unchanged. -/
theorem C2_witness :
    ((calcSessionEx.perform_calculation "divide" (.num 10) (.num 0) "t").1 =
      Except.error (PyError.operationError "Cannot divide by zero")) ∧
    ((calcSessionEx.perform_calculation "divide" (.num 10) (.num 0) "t").2.history =
      calcSessionEx.history) ∧
    ((calcSessionEx.perform_calculation "divide" (.num 10) (.num 0) "t").2.notified =
      calcSessionEx.notified) :=
  ⟨by decide,
   (C2_theorem calcSessionEx "divide" (.num 10) (.num 0) "t"
      (PyError.operationError "Cannot divide by zero") (by decide)).1,
   (C2_theorem calcSessionEx "divide" (.num 10) (.num 0) "t"
      (PyError.operationError "Cannot divide by zero") (by decide)).2⟩

/-- C10: when both operands pass validation (numeric and within range) and the
call then fails for any later reason (unknown operation name, operation
failure, or the round step), the caretaker has exactly one new entry holding
the pre-call history on its undo stack, its redo stack has been cleared (so
can_redo is false), and the history store itself is unchanged. -/
theorem C10_theorem (c : Calculator) (operation_name : String) (va vb : ℚ)
    (now : String) (e : PyError)
    (hra : ¬ |va| > c.config.max_input_value)
    (hrb : ¬ |vb| > c.config.max_input_value)
    (herr : (c.perform_calculation operation_name (.num va) (.num vb) now).1 =
      Except.error e) :
    ((c.perform_calculation operation_name (.num va) (.num vb) now).2.caretaker.undo_stack =
      c.caretaker.undo_stack ++ [c.history.hist]) ∧
    ((c.perform_calculation operation_name (.num va) (.num vb) now).2.caretaker.redo_stack =
      []) ∧
    ((c.perform_calculation operation_name (.num va) (.num vb) now).2.history = c.history) ∧
    ((c.perform_calculation operation_name (.num va) (.num vb) now).2.caretaker.can_redo =
      false) := by
  unfold Calculator.perform_calculation at herr ⊢
  simp only [validate_number, validate_in_range, if_neg hra, if_neg hrb] at herr ⊢
  cases h5 : OperationFactory.create_operation operation_name with
  | error e5 =>
    simp [h5, CalculatorCaretaker.save_state, CalculationHistory.get_history,
      CalculatorCaretaker.can_redo]
  | ok op =>
  simp only [h5] at herr ⊢
  cases h6 : opExecute op va vb with
  | error e6 =>
    simp [h6, CalculatorCaretaker.save_state, CalculationHistory.get_history,
      CalculatorCaretaker.can_redo]
  | ok value =>
  simp only [h6] at herr ⊢
  cases h7 : pyRound value c.config.precision with
  | error e7 =>
    simp [h7, CalculatorCaretaker.save_state, CalculationHistory.get_history,
      CalculatorCaretaker.can_redo]
  | ok rounded =>
  simp only [h7] at herr
  exact absurd herr (by simp)

/-- A concrete session whose history holds one record and whose caretaker
currently has a non-empty redo stack (so the clearing is observable). -/
def calcSessionWithRedo : Calculator :=
  ⟨cfgEx, ⟨[calcA], 100⟩, ⟨[[]], [[calcA]]⟩, [], []⟩

/-- C10 witness: an unknown operation name on a concrete session with one
record already stored: both operands validate, the call fails, the pre-call
history is pushed onto the undo stack, the redo stack is empty and can_redo is
false, and the history store is unchanged. -/
theorem C10_witness :
    (¬ |(3 : ℚ)| > calcSessionWithRedo.config.max_input_value) ∧
    (((calcSessionWithRedo.perform_calculation "bogus" (.num 3) (.num 4) "t").1 =
      Except.error (PyError.operationError "Unknown operation: bogus"))) ∧
    ((calcSessionWithRedo.perform_calculation "bogus" (.num 3) (.num 4) "t").2.caretaker.undo_stack =
      calcSessionWithRedo.caretaker.undo_stack ++ [calcSessionWithRedo.history.hist]) ∧
    ((calcSessionWithRedo.perform_calculation "bogus" (.num 3) (.num 4) "t").2.caretaker.redo_stack =
      []) ∧
    ((calcSessionWithRedo.perform_calculation "bogus" (.num 3) (.num 4) "t").2.history =
      calcSessionWithRedo.history) ∧
    ((calcSessionWithRedo.perform_calculation "bogus" (.num 3) (.num 4) "t").2.caretaker.can_redo =
      false) :=
  ⟨by decide, by decide,
   (C10_theorem calcSessionWithRedo "bogus" 3 4 "t"
      (PyError.operationError "Unknown operation: bogus")
      (by decide) (by decide) (by decide)).1,
   (C10_theorem calcSessionWithRedo "bogus" 3 4 "t"
      (PyError.operationError "Unknown operation: bogus")
      (by decide) (by decide) (by decide)).2.1,
   (C10_theorem calcSessionWithRedo "bogus" 3 4 "t"
      (PyError.operationError "Unknown operation: bogus")
      (by decide) (by decide) (by decide)).2.2.1,
   (C10_theorem calcSessionWithRedo "bogus" 3 4 "t"
      (PyError.operationError "Unknown operation: bogus")
      (by decide) (by decide) (by decide)).2.2.2⟩
